import Mathlib

/-!
Verification development for the RemedyHelper module
(src/remedy_py/RemedyHelper.py).

The module is a field-mapping layer between a cloud-management platform's
order records and a vendor ITSM REST API.  This file gives a shallow
embedding of the functions the claims are about:

* `attach_file_to_workorder` - multipart attachment with a 10,000,000-byte
  trailing-window truncation rule;
* `submit_workorder` - create-call wrapper returning either the created
  record's value mapping or an error string;
* `get_workorder` / `get_workorder_tasks` / `get_person_by_username` /
  `get_incident` / `get_incident_notes` - filtered single queries;
* `create_workorder` / `create_build_workorder` /
  `create_modification_workorder` - order-type dispatch and payload
  construction.

Modeling conventions:

* File bytes are `List Nat`; byte-for-byte equality is list equality.
* A Python function that can (a) return a normal value, (b) return an
  error string, or (c) let an exception escape is modeled with `PyRet`.
* Transport calls (the inherited `get_form_entry` / `create_form_entry`
  REST wrappers, which live in `RemedyAPIClient`, outside this module) are
  modeled as explicit inputs: `Except.error e` models the call raising an
  exception whose rendered message is `e`, `Except.ok x` models a
  successful call returning parsed JSON content `x`.
* Django ORM attribute reads are modeled as record fields; an attribute
  read that raises `AttributeError` inside a `try ... except
  AttributeError` block is modeled with an `Option` field (`none` means
  the read raises).
-/

/-- Python exceptions that escape the modeled functions uncaught. -/
inductive PyExc where
  | typeError (msg : String)
  | indexError
  deriving DecidableEq, Repr

/-- Outcome of a Python call: a normal value, a returned error string
(the module's convention is to return formatted strings on caught
failures), or an uncaught exception. -/
inductive PyRet (α : Type) where
  | val (a : α)
  | str (s : String)
  | exn (e : PyExc)
  deriving DecidableEq, Repr

/-- A vendor form field mapping: field name to field value.  All values
written by this module are strings. -/
abbrev Values := List (String × String)

/-- One entry of a form query result (a JSON object with a `values`
mapping), as returned inside the `entries` list of `get_form_entry`. -/
structure Entry where
  values : Values
  deriving DecidableEq, Repr

/-! ## Read operations (lines 118-179 of the source)

Each function issues one filtered `get_form_entry` query; the query
construction (form name and filter string) has no logic, so the transport
outcome is taken as the input.  `Except.ok entries` models a successful
call whose parsed JSON carries the given `entries` list; `Except.error e`
models the call raising (caught by the `except Exception` clause).
Note that the final indexing of the result sits OUTSIDE the
`try`/`except` block in the source. -/

/-- Model of `get_workorder` (source lines 118-125): on a transport
exception returns the formatted error string; otherwise evaluates
`workorder[0]['entries'][0]`, which raises `IndexError` when the entries
list is empty, since that line is outside the try block. -/
def get_workorder (transport : Except String (List Entry)) : PyRet Entry :=
  match transport with
  | Except.error e => PyRet.str ("Error getting workorder: " ++ e)
  | Except.ok entries =>
    match entries with
    | [] => PyRet.exn PyExc.indexError
    | x :: _ => PyRet.val x

/-- Model of `get_workorder_tasks` (source lines 128-136): returns
`tasks[0]['entries']`, the whole entries list (empty on zero matches). -/
def get_workorder_tasks (transport : Except String (List Entry)) : PyRet (List Entry) :=
  match transport with
  | Except.error e => PyRet.str ("Error getting workorder tasks: " ++ e)
  | Except.ok entries => PyRet.val entries

/-- Model of `get_person_by_username` (source lines 149-157): same shape
as `get_workorder`, with `person[0]['entries'][0]` outside the try. -/
def get_person_by_username (transport : Except String (List Entry)) : PyRet Entry :=
  match transport with
  | Except.error e => PyRet.str ("Error getting person: " ++ e)
  | Except.ok entries =>
    match entries with
    | [] => PyRet.exn PyExc.indexError
    | x :: _ => PyRet.val x

/-- Model of `get_incident` (source lines 160-168): same shape as
`get_workorder`, with `incident[0]['entries'][0]` outside the try. -/
def get_incident (transport : Except String (List Entry)) : PyRet Entry :=
  match transport with
  | Except.error e => PyRet.str ("Error getting incident: " ++ e)
  | Except.ok entries =>
    match entries with
    | [] => PyRet.exn PyExc.indexError
    | x :: _ => PyRet.val x

/-- Model of `get_incident_notes` (source lines 171-179): returns
`notes[0]['entries']`, the whole entries list (empty on zero matches). -/
def get_incident_notes (transport : Except String (List Entry)) : PyRet (List Entry) :=
  match transport with
  | Except.error e => PyRet.str ("Error getting incident notes: " ++ e)
  | Except.ok entries => PyRet.val entries

/-! ## submit_workorder (source lines 75-93) -/

/-- The single-quote character, used when rendering a Python `KeyError`
(its `str()` form wraps the missing key in single quotes). -/
def pyQuote : String := String.mk [Char.ofNat 39]

/-- Model of `submit_workorder`.  The input is the outcome of
`create_form_entry` rendered as the `values` mapping of
`workorder[0]` (`Except.error e` models the call raising with message
`e`).  Inside the try block, the debug log line evaluates
`workorder[0]['values']['WorkOrder_ID']`; a missing `WorkOrder_ID` key
raises `KeyError`, which the `except Exception` clause catches and
formats.  After a successful try block the function returns
`workorder[0]['values']`, which can no longer raise. -/
def submit_workorder (createResult : Except String Values) : PyRet Values :=
  match createResult with
  | Except.error e => PyRet.str ("Error creating workorder: " ++ e)
  | Except.ok vs =>
    match vs.lookup "WorkOrder_ID" with
    | none => PyRet.str ("Error creating workorder: " ++ (pyQuote ++ "WorkOrder_ID" ++ pyQuote))
    | some _ => PyRet.val vs

/-! ## attach_file_to_workorder (source lines 518-570) -/

/-- Value of `os.sep` on the deployment platform (the source header pins
a posix install path). -/
def sep : String := "/"

/-- Content of the attachment part of the multipart request: raw file
bytes, or the placeholder text substituted on a read failure. -/
inductive AttachContent where
  | bytes (bs : List Nat)
  | text (s : String)
  deriving DecidableEq, Repr

/-- The multipart PUT request composed by `attach_file_to_workorder`:
the JSON metadata part (`files['entry']`, holding the `values` mapping)
and the attachment part (`files['attach-z2AF_Act_Attachment_1']`,
holding filename, content and declared content type), plus the target
path of the URL. -/
structure AttachRequest where
  entryValues : Values
  attachName : String
  attachContent : AttachContent
  attachContentType : String
  urlPath : String
  deriving DecidableEq, Repr

/-- Model of `attach_file_to_workorder`.

The preceding `get_workorder(workorder_id)` lookup that resolves the
internal `Request ID` is modeled by the `req_id` input.  The local file
is modeled by `file`: `some bs` means `getsize` and the reads succeed on
a file whose bytes are `bs` (so `getsize` returns `bs.length`), `none`
means any step of the size lookup / open / read raises (the source uses a
bare `except`).

Truncation rule (source lines 536-544): when `size >= 10000000` the
source seeks to `10000000` bytes before the end (`file.seek(-10000000,
SEEK_END)`, i.e. to offset `size - 10000000`) and `file.read()` returns
the bytes from that offset to the end, modeled by `List.drop`; otherwise
`file.read()` returns the whole file.

After the content is determined the source unconditionally composes the
multipart body and issues the PUT; the request it issues is the value
returned here (the HTTP response handling is transport, out of scope). -/
def attach_file_to_workorder (req_id : String) (filepath : String) (filename : String)
    (details : Option String) (view_access : Option String)
    (content_type : String) (file : Option (List Nat)) : AttachRequest :=
  let values : Values := [
    ("z1D_Details", details.getD "No details entered"),
    ("z1D_View_Access", view_access.getD "Public"),
    ("z1D_Action", "MODIFY"),
    ("z1D_Activity Type*", "General Information"),
    ("z1D_Secure_Log", "Yes"),
    ("z2AF_Act_Attachment_1", filename)]
  let content : AttachContent :=
    match file with
    | some bs =>
      let size := bs.length
      if size ≥ 10000000 then AttachContent.bytes (bs.drop (size - 10000000))
      else AttachContent.bytes bs
    | none => AttachContent.text ("File " ++ (filepath ++ sep ++ filename) ++ " could not be read")
  { entryValues := values,
    attachName := filename,
    attachContent := content,
    attachContentType := content_type,
    urlPath := "/WOI:WorkOrderInterface/" ++ req_id }

/-! ## Claim theorems for the attachment and read/submit operations -/

/-- **C1**: for a readable file of size at least 10,000,000 bytes, the
content placed in the attachment part is exactly the last 10,000,000
bytes of the file (a suffix of the file of length exactly 10,000,000),
so the attached payload never exceeds the cap. -/
theorem attach_truncates_large_file (req_id filepath filename ct : String)
    (details view_access : Option String) (bs : List Nat)
    (h : 10000000 ≤ bs.length) :
    ∃ l, (attach_file_to_workorder req_id filepath filename details view_access ct
            (some bs)).attachContent = AttachContent.bytes l ∧
      l.length = 10000000 ∧ l <:+ bs := by
  refine ⟨bs.drop (bs.length - 10000000), ?_, ?_, List.drop_suffix _ _⟩
  · simp only [attach_file_to_workorder]
    rw [if_pos h]
  · rw [List.length_drop]
    omega

/-- Witness for C1 at a concrete 10,000,007-byte file. -/
theorem attach_truncates_large_file_witness :
    10000000 ≤ (List.replicate 10000007 3).length ∧
    ∃ l, (attach_file_to_workorder "R1" "/var/log" "big.log" none none
            "application/octet-stream" (some (List.replicate 10000007 3))).attachContent
          = AttachContent.bytes l ∧
      l.length = 10000000 ∧ l <:+ List.replicate 10000007 3 :=
  ⟨by simp only [List.length_replicate]; omega,
   attach_truncates_large_file "R1" "/var/log" "big.log" "application/octet-stream"
     none none (List.replicate 10000007 3)
     (by simp only [List.length_replicate]; omega)⟩

/-- **C2**: for a readable file of size strictly below 10,000,000 bytes,
the content placed in the attachment part is the entire file,
byte-for-byte. -/
theorem attach_keeps_small_file (req_id filepath filename ct : String)
    (details view_access : Option String) (bs : List Nat)
    (h : bs.length < 10000000) :
    (attach_file_to_workorder req_id filepath filename details view_access ct
        (some bs)).attachContent = AttachContent.bytes bs := by
  simp only [attach_file_to_workorder]
  rw [if_neg (by omega)]

/-- Witness for C2 at a concrete 3-byte file. -/
theorem attach_keeps_small_file_witness :
    ([1, 2, 3] : List Nat).length < 10000000 ∧
    (attach_file_to_workorder "R1" "/tmp" "a.txt" none none
        "application/octet-stream" (some [1, 2, 3])).attachContent
      = AttachContent.bytes [1, 2, 3] :=
  ⟨by decide,
   attach_keeps_small_file "R1" "/tmp" "a.txt" "application/octet-stream"
     none none [1, 2, 3] (by decide)⟩

/-- **C5**: when reading the local file fails for any reason, the
attachment content is the literal placeholder string
`File <filepath>/<filename> could not be read`, and the multipart update
request is still composed and issued (the returned request carries the
attachment part named with the given filename and declared content
type). -/
theorem attach_read_failure_placeholder (req_id filepath filename ct : String)
    (details view_access : Option String) :
    (attach_file_to_workorder req_id filepath filename details view_access ct
        none).attachContent
      = AttachContent.text ("File " ++ (filepath ++ sep ++ filename) ++ " could not be read") ∧
    (attach_file_to_workorder req_id filepath filename details view_access ct
        none).attachName = filename ∧
    (attach_file_to_workorder req_id filepath filename details view_access ct
        none).attachContentType = ct :=
  ⟨rfl, rfl, rfl⟩

/-- **C9**: the metadata part defaults `z1D_Details` to
`No details entered` when `details` is `None` and `z1D_View_Access` to
`Public` when `view_access` is `None`, and always carries
`z1D_Action = MODIFY` and the filename in `z2AF_Act_Attachment_1` (the
attachment part is also named with the filename). -/
theorem attach_metadata_defaults (req_id filepath filename ct : String)
    (details view_access : Option String) (file : Option (List Nat)) :
    (details = none →
      (attach_file_to_workorder req_id filepath filename details view_access ct
          file).entryValues.lookup "z1D_Details" = some "No details entered") ∧
    (view_access = none →
      (attach_file_to_workorder req_id filepath filename details view_access ct
          file).entryValues.lookup "z1D_View_Access" = some "Public") ∧
    (attach_file_to_workorder req_id filepath filename details view_access ct
        file).entryValues.lookup "z1D_Action" = some "MODIFY" ∧
    (attach_file_to_workorder req_id filepath filename details view_access ct
        file).entryValues.lookup "z2AF_Act_Attachment_1" = some filename ∧
    (attach_file_to_workorder req_id filepath filename details view_access ct
        file).attachName = filename := by
  refine ⟨fun h => ?_, fun h => ?_, rfl, rfl, rfl⟩
  · subst h; rfl
  · subst h; rfl

/-- Witness for C9 with `details` and `view_access` both `None`. -/
theorem attach_metadata_defaults_witness :
    (attach_file_to_workorder "R1" "/tmp" "a.txt" none none
        "application/octet-stream" none).entryValues.lookup "z1D_Details"
      = some "No details entered" ∧
    (attach_file_to_workorder "R1" "/tmp" "a.txt" none none
        "application/octet-stream" none).entryValues.lookup "z1D_View_Access"
      = some "Public" :=
  ⟨(attach_metadata_defaults "R1" "/tmp" "a.txt" "application/octet-stream"
      none none none).1 rfl,
   (attach_metadata_defaults "R1" "/tmp" "a.txt" "application/octet-stream"
      none none none).2.1 rfl⟩

/-- **C6**: `submit_workorder` never lets an exception escape; every
outcome is either the created record's value mapping or an error string
of the form `Error creating workorder: <detail>`. -/
theorem submit_workorder_never_raises (r : Except String Values) :
    (∀ e, submit_workorder r ≠ PyRet.exn e) ∧
    ((∃ vs, submit_workorder r = PyRet.val vs) ∨
     (∃ t, submit_workorder r = PyRet.str ("Error creating workorder: " ++ t))) := by
  cases r with
  | error e =>
    exact ⟨fun e' h => by simp [submit_workorder] at h, Or.inr ⟨e, rfl⟩⟩
  | ok vs =>
    cases h : vs.lookup "WorkOrder_ID" with
    | none =>
      refine ⟨fun e' hc => ?_, Or.inr ⟨pyQuote ++ "WorkOrder_ID" ++ pyQuote, ?_⟩⟩
      · simp [submit_workorder, h] at hc
      · simp [submit_workorder, h]
    | some w =>
      refine ⟨fun e' hc => ?_, Or.inl ⟨vs, ?_⟩⟩
      · simp [submit_workorder, h] at hc
      · simp [submit_workorder, h]

/-- Witness for C6 at a concrete failing create call. -/
theorem submit_workorder_never_raises_witness :
    (∀ e, submit_workorder (Except.error "boom") ≠ PyRet.exn e) ∧
    ((∃ vs, submit_workorder (Except.error "boom") = PyRet.val vs) ∨
     (∃ t, submit_workorder (Except.error "boom")
        = PyRet.str ("Error creating workorder: " ++ t))) :=
  submit_workorder_never_raises (Except.error "boom")

/-- **C4**: a query returning zero matching records does NOT yield a
"not found" error result.  In `get_workorder`, `get_person_by_username`
and `get_incident` the first-entry indexing sits outside the try block,
so an empty result raises `IndexError`; `get_workorder_tasks` and
`get_incident_notes` return the (empty) entries list rather than an
error, and on a non-empty result they return all entries, not the first
record. -/
theorem read_ops_zero_matches :
    get_workorder (Except.ok []) = PyRet.exn PyExc.indexError ∧
    get_person_by_username (Except.ok []) = PyRet.exn PyExc.indexError ∧
    get_incident (Except.ok []) = PyRet.exn PyExc.indexError ∧
    get_workorder_tasks (Except.ok []) = PyRet.val [] ∧
    get_incident_notes (Except.ok []) = PyRet.val [] :=
  ⟨rfl, rfl, rfl, rfl, rfl⟩

/-! ## Workorder creation (source lines 96-115, 201-334, 337-407)

Module-level configuration constants (source lines 28-41).  `portal.domain`
and the `ConnectionInfo` credential are deployment configuration read from
the ORM at import time; they are modeled as fixed opaque strings since no
claim depends on their values. -/

/-- Deployment portal domain (from `PortalConfig.objects.last()`). -/
def portalDomain : String := "portal.example"

/-- Source line 29. -/
def CLOUDBOLTORDERURL : String := "https://" ++ portalDomain ++ "/orders"

/-- Source line 33. -/
def REMEDY_COMPANY : String := "University of Kansas Hospital"

/-- Source line 34. -/
def REMEDY_SUPPORT_GROUP : String := "Servers and Storage"

/-- Source line 35. -/
def REMEDY_SUPPORT_ORG : String := "HITS - IT Infrastructure"

/-- Username of the `Remedy RestAPI` connection (from `ConnectionInfo`),
used as the `Submitter` field value. -/
def REMEDY_API_username : String := "remedy-api"

/-- Source lines 38-41: the template name to vendor template id map. -/
def TEMPLATE_LIST : List (String × String) :=
  [("Build_Server", "IDGAA5V0F2IWUAPH3YCVPG73D772NR"),
   ("Modify_Server", "IDGAA5V0F2BJ9APPV3A8POYHQ1BJB4")]

/-- Python `str.startswith`, implemented over the character list so that
it reduces definitionally. -/
def strStartsWith (s pre : String) : Bool :=
  s.data.take pre.data.length == pre.data

/-- Concrete type of `order.orderitem_set.first().cast()`: the two
supported order item classes, or anything else. -/
inductive CastType where
  | blueprint
  | serverMod
  | other
  deriving DecidableEq, Repr

/-- The attribute reads performed inside the first try block of
`create_build_workorder` (source lines 221-226): `order_item.server`,
`server.hostname`, `server.environment`, `server.os_build.name`.  When
the reads all succeed these are their values; the block then calls
`self.get_environment_capacity(environment)` (see
`create_build_workorder_rest`). -/
structure ServerRead where
  hostname : String
  environmentName : String
  osBuildName : String
  deriving DecidableEq, Repr

/-- Fields of `order.owner.user` read by the payload builders. -/
structure OwnerUser where
  username : String
  first_name : String
  last_name : String
  deriving DecidableEq, Repr

/-- The server record read by `create_modification_workorder` via
`Server.objects.get(hostname=oic.server.hostname)` (only the fields the
function uses). -/
structure ModServer where
  hostname : String
  ukhs_funding_source : String
  ukhs_serverorder_notes : String
  deriving DecidableEq, Repr

/-- One CMP order as read by the workorder builders.  ORM reads are
modeled as fields; `Option` fields model attribute reads that may raise
`AttributeError` inside a `try ... except AttributeError` block
(`none` means the read raises). -/
structure CmpOrder where
  /-- `order.id`. -/
  id : Nat
  /-- `order.name` (used as the fallback hostname). -/
  name : String
  /-- Concrete type of `order.orderitem_set.first().cast()`. -/
  castType : CastType
  /-- Outcome of the server attribute reads of source lines 222-225;
  `none` models an `AttributeError` from any of them. -/
  serverRead : Option ServerRead
  /-- Outcome of `order_item.get_rate_display()` (source line 235);
  `none` models an `AttributeError`. -/
  rateDisplay : Option String
  /-- `order.owner.user`. -/
  owner : OwnerUser
  /-- `order.recipient`, as `(full_name, user.email)` when set. -/
  recipient : Option (String × String)
  /-- `order.group.parent.name`. -/
  groupParentName : String
  /-- `order.group.name`. -/
  groupName : String
  /-- `order.mod_server_count()` (modification path). -/
  modServerCount : Nat
  /-- `order.get_rate_display()` (modification path). -/
  orderRateDisplay : String
  /-- The ORM server record fetched in the modification path. -/
  modServer : ModServer
  /-- `oic.delta().items()` (modification path), in iteration order. -/
  modDelta : List (String × String)
  deriving DecidableEq, Repr

/-- The `FakeServer` placeholder record (source lines 58-72), substituted
when the server attribute reads raise `AttributeError`. -/
structure FakeServer where
  hostname : String
  quantity : Nat
  os_build : String
  cpu_cnt : Nat
  mem_size : Nat
  disk_size : Nat
  ukhs_cost_center : String
  ukhs_funding_source : String
  ukhs_serverorder_notes : String
  ukhs_patch_group : String
  ukhs_impact : String
  ukhs_urgency : String
  ukhs_dr_tier : String
  deriving DecidableEq, Repr

/-- The field values `FakeServer.__init__` assigns. -/
def fakeServer : FakeServer :=
  { hostname := "None", quantity := 0, os_build := "None", cpu_cnt := 0,
    mem_size := 0, disk_size := 0, ukhs_cost_center := "N/A",
    ukhs_funding_source := "N/A", ukhs_serverorder_notes := "N/A",
    ukhs_patch_group := "N/A", ukhs_impact := "N/A", ukhs_urgency := "N/A",
    ukhs_dr_tier := "N/A" }

/-- Body of `create_build_workorder` after the isinstance check and the
template resolution (source lines 220-334), with `template_id` already
resolved.

First try block (lines 221-232): if all server attribute reads succeed,
the block then evaluates `self.get_environment_capacity(environment)`.
`get_environment_capacity` is defined (line 471) with the single
parameter `environment` and no `self`, so the bound-method call passes
two arguments to a one-parameter function and raises `TypeError`, which
`except AttributeError` does not catch: the exception escapes.  If a read
raises `AttributeError`, the except clause substitutes `FakeServer()`,
`hostname = order.name`, and empty strings for environment, os_build and
capacity.

Second try block (lines 234-239): if `order_item.get_rate_display()`
succeeds, the block then evaluates
`self.get_server_rate_hardware_breakdown(order)`, again a one-parameter
function (line 488) called with two arguments: `TypeError` escapes.  On
`AttributeError` both `quotedcost` and `hwcost` are set to `''`.

Description (lines 243-301): Python `if not description:` treats `None`
and `''` alike.  When a description must be built, the f-string evaluates
`float(hwcost['CPUs'])`; in every path that reaches it `hwcost` is the
string `''`, and indexing a `str` with a `str` key raises `TypeError`
(so the per-server description template, lines 245-301, is unreachable
with real data).  Otherwise the caller's description is used and the
values payload (lines 303-332) is returned. -/
def create_build_workorder_rest (order : CmpOrder) (description : Option String)
    (template_id : String) : PyRet Values :=
  match order.serverRead with
  | some _ =>
    PyRet.exn (PyExc.typeError
      "get_environment_capacity() takes 1 positional argument but 2 were given")
  | none =>
    let server := fakeServer
    let hostname := order.name
    match order.rateDisplay with
    | some _ =>
      PyRet.exn (PyExc.typeError
        "get_server_rate_hardware_breakdown() takes 1 positional argument but 2 were given")
    | none =>
      -- quotedcost = '' and hwcost = '' from the except clause.
      -- recipient (line 241) is computed but only the description uses it.
      if (description.getD "") == "" then
        PyRet.exn (PyExc.typeError "string indices must be integers")
      else
        PyRet.val [
          ("Summary", "SRV - Build - CMP Order " ++ toString order.id ++ " - " ++ hostname),
          ("Detailed Description", description.getD ""),
          ("Customer First Name", order.owner.first_name),
          ("Customer Last Name", order.owner.last_name),
          ("RequesterLoginID", order.owner.username),
          ("First Name", order.owner.first_name),
          ("Last Name", order.owner.last_name),
          ("Support Group Name", REMEDY_SUPPORT_GROUP),
          ("Support Organization", REMEDY_SUPPORT_ORG),
          ("Support Company", REMEDY_COMPANY),
          ("Location Company", REMEDY_COMPANY),
          ("Company", REMEDY_COMPANY),
          ("Submitter", REMEDY_API_username),
          ("Priority", "Low"),
          ("Status", "Assigned"),
          ("Automation Status", "Automated"),
          ("WO Type Field 01", "Build"),
          ("WO Type Field 02", "CMP OrderID " ++ toString order.id),
          ("WO Type Field 03", server.ukhs_funding_source),
          ("WO Type Field 04", server.ukhs_serverorder_notes),
          ("WO Type Field 05 Label", "CloudBolt Status"),
          ("WO Type Field 05", "Pending Approval"),
          ("WO Type Field 14", server.ukhs_patch_group),
          ("WO Type Field 16", server.ukhs_impact),
          ("WO Type Field 17", server.ukhs_urgency),
          ("WO Type Field 18", server.ukhs_dr_tier),
          ("TemplateID", template_id),
          ("z1D_Action", "CREATE")]

/-- Model of `create_build_workorder` (source lines 201-334).  The
isinstance check comes first; then the template resolution (lines
214-218): a key of `TEMPLATE_LIST` is replaced by its mapped value
(the map's values are non-empty, so Python truthiness equals presence);
a non-key not starting with `IDGAA` returns the error string; a non-key
starting with `IDGAA` is passed through. -/
def create_build_workorder (order : CmpOrder) (description : Option String)
    (template_id : String) : PyRet Values :=
  match order.castType with
  | CastType.blueprint =>
    match TEMPLATE_LIST.lookup template_id with
    | some t => create_build_workorder_rest order description t
    | none =>
      if strStartsWith template_id "IDGAA" then
        create_build_workorder_rest order description template_id
      else
        PyRet.str "Error: Invalid template ID"
  | _ => PyRet.str "Error: Order item is not a BlueprintOrderItem"

/-- Body of `create_modification_workorder` after the isinstance check,
the ORM fetches and the template resolution (source lines 360-407), with
`template_id` already resolved.  Python `if not description:` treats
`None` and `''` alike; the built description is the f-string of lines
362-376 followed by one `{mod_item}: {mod_change}` line per delta
entry. -/
def create_modification_workorder_rest (order : CmpOrder) (description : Option String)
    (template_id : String) : PyRet Values :=
  let server := order.modServer
  let builtDescription :=
    "\n    Once this workorder is \"In Progress\" and the funding process has been marked \"Success\", CloudBolt will proceed with the server modification.\n    -OR-\n    View, Edit, Approve or Deny the order here:\n    "
      ++ CLOUDBOLTORDERURL ++ "/" ++ toString order.id
      ++ "\n\n    Server Name:\t " ++ server.hostname
      ++ "\n    Quantity:\t " ++ toString order.modServerCount
      ++ "\n    Requester:\t " ++ order.owner.username
      ++ "\n    Group:\t " ++ order.groupParentName ++ " \\ " ++ order.groupName
      ++ "\n    Total Quoted Cost:\t " ++ order.orderRateDisplay
      ++ "\n    Funding Source:\t " ++ server.ukhs_funding_source
      ++ "\n\n    --MODIFICATION--\n"
      ++ String.join (order.modDelta.map (fun p => p.1 ++ ": " ++ p.2 ++ "\n"))
  let descr := if (description.getD "") == "" then builtDescription
               else description.getD ""
  PyRet.val [
    ("Summary", "SRV - Modify - CMP Order " ++ toString order.id ++ " - " ++ server.hostname),
    ("Detailed Description", descr),
    ("Customer First Name", order.owner.first_name),
    ("Customer Last Name", order.owner.last_name),
    ("RequesterLoginID", order.owner.username),
    ("First Name", order.owner.first_name),
    ("Last Name", order.owner.last_name),
    ("Support Group Name", REMEDY_SUPPORT_GROUP),
    ("Support Organization", REMEDY_SUPPORT_ORG),
    ("Support Company", REMEDY_COMPANY),
    ("Location Company", REMEDY_COMPANY),
    ("Company", REMEDY_COMPANY),
    ("Submitter", REMEDY_API_username),
    ("Priority", "Low"),
    ("Status", "Assigned"),
    ("Automation Status", "Automated"),
    ("WO Type Field 01", "Modify"),
    ("WO Type Field 02", "CMP OrderID " ++ toString order.id),
    ("WO Type Field 03", server.ukhs_funding_source),
    ("WO Type Field 04", server.ukhs_serverorder_notes),
    ("WO Type Field 05 Label", "CloudBolt Status"),
    ("WO Type Field 05", "Pending Approval"),
    ("TemplateID", template_id),
    ("z1D_Action", "CREATE")]

/-- Model of `create_modification_workorder` (source lines 337-407).
The ORM fetches of the server and environment records (lines 351-352)
are modeled by the `modServer` field (the environment record is never
used afterwards); the template resolution (lines 354-358) is identical
to the build variant's. -/
def create_modification_workorder (order : CmpOrder) (description : Option String)
    (template_id : String) : PyRet Values :=
  match order.castType with
  | CastType.serverMod =>
    match TEMPLATE_LIST.lookup template_id with
    | some t => create_modification_workorder_rest order description t
    | none =>
      if strStartsWith template_id "IDGAA" then
        create_modification_workorder_rest order description template_id
      else
        PyRet.str "Error: Invalid template ID"
  | _ => PyRet.str "Error: Order item is not a ServerModOrderItem"

/-- The dispatch and payload-construction portion of `create_workorder`
(source lines 96-115).  The source then passes the result of the chosen
branch to `self.submit_workorder(values)` (modeled separately by
`submit_workorder`); the unsupported-type branch returns its error
string directly, without submitting.  The default `template_id` is
`TEMPLATE_LIST["Build_Server"]`. -/
def create_workorder_values (order : CmpOrder) (description : Option String)
    (template_id : String) : PyRet Values :=
  match order.castType with
  | CastType.blueprint => create_build_workorder order description template_id
  | CastType.serverMod => create_modification_workorder order description template_id
  | CastType.other => PyRet.str "Error: Order item is not a valid type"

/-! ## Helper lemmas and concrete records for the workorder claims -/

/-- Whenever the post-template body of `create_build_workorder` returns a
payload, that payload's `TemplateID` is the resolved template id. -/
theorem build_rest_payload_template (order : CmpOrder) (d : Option String)
    (t : String) (vs : Values)
    (h : create_build_workorder_rest order d t = PyRet.val vs) :
    vs.lookup "TemplateID" = some t := by
  cases hs : order.serverRead with
  | some s => simp [create_build_workorder_rest, hs] at h
  | none =>
    cases hr : order.rateDisplay with
    | some r => simp [create_build_workorder_rest, hs, hr] at h
    | none =>
      simp only [create_build_workorder_rest, hs, hr] at h
      split at h
      · simp at h
      · injection h with h
        subst h
        rfl

/-- Whenever the post-template body of `create_modification_workorder`
returns a payload, that payload's `TemplateID` is the resolved template
id. -/
theorem mod_rest_payload_template (order : CmpOrder) (d : Option String)
    (t : String) (vs : Values)
    (h : create_modification_workorder_rest order d t = PyRet.val vs) :
    vs.lookup "TemplateID" = some t := by
  simp only [create_modification_workorder_rest] at h
  injection h with h
  subst h
  rfl

/-- A concrete owner record used by the concrete example orders. -/
def ownerJD : OwnerUser :=
  { username := "jdoe", first_name := "Jane", last_name := "Doe" }

/-- A concrete ORM server record for the modification path. -/
def modServerDB : ModServer :=
  { hostname := "db01", ukhs_funding_source := "Dept-42",
    ukhs_serverorder_notes := "none" }

/-- A concrete readable server for the failing input of C3. -/
def srvRead01 : ServerRead :=
  { hostname := "srv01", environmentName := "Prod", osBuildName := "RHEL 8" }

/-- A concrete readable server for the failing input of C7. -/
def srvRead02 : ServerRead :=
  { hostname := "srv01", environmentName := "Prod",
    osBuildName := "Windows Server 2022" }

/-- A concrete well-formed blueprint order (server and rate attribute
reads raising `AttributeError`, no recipient), varied per claim below. -/
def baseOrder : CmpOrder :=
  { id := 101, name := "CMP-Order-101", castType := CastType.blueprint,
    serverRead := none, rateDisplay := none, owner := ownerJD,
    recipient := none, groupParentName := "IT", groupName := "Servers",
    modServerCount := 1, orderRateDisplay := "$10.00",
    modServer := modServerDB, modDelta := [("CPUs", "2 to 4")] }

/-! ## Claim theorems for the workorder operations -/

/-- **C3** (failing-input evaluation): on an order whose first item casts
to `BlueprintOrderItem` and whose server attributes are all readable
(hostname `srv01`), `create_workorder` does not build a `Build` payload:
the first try block calls `self.get_environment_capacity(environment)`,
a method defined without `self`, and the resulting `TypeError` escapes
(`except AttributeError` does not catch it).  The unsupported-type
branch does return the claimed error string. -/
theorem create_workorder_build_branch_raises :
    create_workorder_values
        { baseOrder with serverRead := some srvRead01 }
        none "IDGAA5V0F2IWUAPH3YCVPG73D772NR"
      = PyRet.exn (PyExc.typeError
          "get_environment_capacity() takes 1 positional argument but 2 were given") ∧
    create_workorder_values { baseOrder with castType := CastType.other }
        none "IDGAA5V0F2IWUAPH3YCVPG73D772NR"
      = PyRet.str "Error: Order item is not a valid type" :=
  ⟨rfl, rfl⟩

/-- **C7** (failing-input evaluation): for a build order with server
fields present (hostname `srv01`) and no caller-supplied description,
`create_build_workorder` raises before any description is generated, so
no description containing the literal field values is ever produced. -/
theorem build_description_never_generated :
    create_build_workorder
        { baseOrder with serverRead := some srvRead02 }
        none "Build_Server"
      = PyRet.exn (PyExc.typeError
          "get_environment_capacity() takes 1 positional argument but 2 were given") :=
  rfl

/-- **C10** (failing-input evaluations, plus the working narrow case):
even when the server attribute reads raise `AttributeError` and the
`FakeServer` record is substituted, the function still fails whenever
`order_item.get_rate_display()` succeeds (the hardware-breakdown method
is defined without `self`: `TypeError`) or whenever no description is
supplied (the description f-string indexes the string `''` with the key
`CPUs`: `TypeError`).  Only when both rate reads also raise
`AttributeError` and a description is supplied does it produce a
payload, with the placeholder values, the order name as hostname, and
`N/A` funding/notes fields. -/
theorem fakeserver_fallback_still_raises :
    create_build_workorder
        { baseOrder with serverRead := none, rateDisplay := some "$25.00" }
        (some "provided description") "Build_Server"
      = PyRet.exn (PyExc.typeError
          "get_server_rate_hardware_breakdown() takes 1 positional argument but 2 were given") ∧
    create_build_workorder { baseOrder with serverRead := none, rateDisplay := none }
        none "Build_Server"
      = PyRet.exn (PyExc.typeError "string indices must be integers") ∧
    create_build_workorder { baseOrder with serverRead := none, rateDisplay := none }
        (some "keep") "Build_Server"
      = PyRet.val [
        ("Summary", "SRV - Build - CMP Order 101 - CMP-Order-101"),
        ("Detailed Description", "keep"),
        ("Customer First Name", "Jane"),
        ("Customer Last Name", "Doe"),
        ("RequesterLoginID", "jdoe"),
        ("First Name", "Jane"),
        ("Last Name", "Doe"),
        ("Support Group Name", "Servers and Storage"),
        ("Support Organization", "HITS - IT Infrastructure"),
        ("Support Company", "University of Kansas Hospital"),
        ("Location Company", "University of Kansas Hospital"),
        ("Company", "University of Kansas Hospital"),
        ("Submitter", "remedy-api"),
        ("Priority", "Low"),
        ("Status", "Assigned"),
        ("Automation Status", "Automated"),
        ("WO Type Field 01", "Build"),
        ("WO Type Field 02", "CMP OrderID 101"),
        ("WO Type Field 03", "N/A"),
        ("WO Type Field 04", "N/A"),
        ("WO Type Field 05 Label", "CloudBolt Status"),
        ("WO Type Field 05", "Pending Approval"),
        ("WO Type Field 14", "N/A"),
        ("WO Type Field 16", "N/A"),
        ("WO Type Field 17", "N/A"),
        ("WO Type Field 18", "N/A"),
        ("TemplateID", "IDGAA5V0F2IWUAPH3YCVPG73D772NR"),
        ("z1D_Action", "CREATE")] :=
  ⟨rfl, rfl, rfl⟩

/-- **C8**: the template id argument is interpreted two ways in both
payload builders.  A key of `TEMPLATE_LIST` is replaced by its mapped
vendor identifier (any returned payload carries the mapped value as
`TemplateID`); a non-key that does not start with `IDGAA` yields the
error string `Error: Invalid template ID` and no payload; a non-key is
otherwise passed through unchanged as the payload's `TemplateID`. -/
theorem template_id_two_way (order : CmpOrder) (d : Option String) (tid : String) :
    ((TEMPLATE_LIST.lookup tid = none ∧ strStartsWith tid "IDGAA" = false) →
      (order.castType = CastType.blueprint →
        create_build_workorder order d tid = PyRet.str "Error: Invalid template ID") ∧
      (order.castType = CastType.serverMod →
        create_modification_workorder order d tid
          = PyRet.str "Error: Invalid template ID")) ∧
    (∀ m vs, TEMPLATE_LIST.lookup tid = some m →
      (create_build_workorder order d tid = PyRet.val vs ∨
       create_modification_workorder order d tid = PyRet.val vs) →
      vs.lookup "TemplateID" = some m) ∧
    (∀ vs, TEMPLATE_LIST.lookup tid = none →
      (create_build_workorder order d tid = PyRet.val vs ∨
       create_modification_workorder order d tid = PyRet.val vs) →
      vs.lookup "TemplateID" = some tid) := by
  refine ⟨fun hinv => ⟨fun hc => ?_, fun hc => ?_⟩,
          fun m vs hl h => ?_, fun vs hl h => ?_⟩
  · obtain ⟨hl, hs⟩ := hinv
    simp [create_build_workorder, hc, hl, hs]
  · obtain ⟨hl, hs⟩ := hinv
    simp [create_modification_workorder, hc, hl, hs]
  · rcases h with h | h
    · cases hct : order.castType with
      | blueprint =>
        simp only [create_build_workorder, hct, hl] at h
        exact build_rest_payload_template order d m vs h
      | serverMod => simp [create_build_workorder, hct] at h
      | other => simp [create_build_workorder, hct] at h
    · cases hct : order.castType with
      | serverMod =>
        simp only [create_modification_workorder, hct, hl] at h
        exact mod_rest_payload_template order d m vs h
      | blueprint => simp [create_modification_workorder, hct] at h
      | other => simp [create_modification_workorder, hct] at h
  · rcases h with h | h
    · cases hct : order.castType with
      | blueprint =>
        simp only [create_build_workorder, hct, hl] at h
        split at h
        · exact build_rest_payload_template order d tid vs h
        · simp at h
      | serverMod => simp [create_build_workorder, hct] at h
      | other => simp [create_build_workorder, hct] at h
    · cases hct : order.castType with
      | serverMod =>
        simp only [create_modification_workorder, hct, hl] at h
        split at h
        · exact mod_rest_payload_template order d tid vs h
        · simp at h
      | blueprint => simp [create_modification_workorder, hct] at h
      | other => simp [create_modification_workorder, hct] at h

/-- Witness for C8 at a concrete invalid template id on both builders. -/
theorem template_id_two_way_witness :
    create_build_workorder baseOrder (some "d") "Bogus_Template"
      = PyRet.str "Error: Invalid template ID" ∧
    create_modification_workorder { baseOrder with castType := CastType.serverMod }
        (some "d") "Bogus_Template"
      = PyRet.str "Error: Invalid template ID" :=
  ⟨((template_id_two_way baseOrder (some "d") "Bogus_Template").1 ⟨rfl, rfl⟩).1 rfl,
   ((template_id_two_way { baseOrder with castType := CastType.serverMod }
       (some "d") "Bogus_Template").1 ⟨rfl, rfl⟩).2 rfl⟩
